import Mathlib

/-!
Shallow embedding of `src/start.py` (the Mendix Cloud Foundry buildpack
bootstrap script) and proofs of its specified properties.

The executable part of the script (lines 14-21) is a straight-line sequence:

    logger.setLevel(logging.INFO)
    logger.info('Started Mendix Cloud Foundry Buildpack')
    logger.info('scanning for newrelic')
    subprocess.call(['find', '/', '-name', 'newrelic'])
    logger.info('now scanning /tmp')
    subprocess.call(['find', '/tmp'])

We embed it as a list of instructions (`script`) interpreted by `runInstrs`
over an explicit logger-level state, producing a trace of observable events
(structured log lines, probe start/termination), the raw standard-output
stream inherited from the probes, and an outcome (normal completion or an
unhandled launch fault).  The external world is a parameter
`exec : List String → Option (Int × List String)`: `none` means the command
could not be launched (Python raises an unhandled `OSError`), and
`some (code, out)` means the child process ran, wrote `out` directly to the
inherited stdout/stderr, and exited with status `code`.
-/

namespace StartPy

/-- The statements of `start.py` that the bootstrap executes, in source
order: `logger.setLevel(l)`, `logger.info(msg)`, `subprocess.call(args)`. -/
inductive Instr where
  | setLevel (l : Nat)
  | info (msg : String)
  | call (args : List String)
deriving DecidableEq, Repr

/-- Observable events of a run: a structured log line emitted at a given
severity, the start of an external probe invocation, and the termination of
an external probe with its exit status. -/
inductive Event where
  | logLine (level : Nat) (msg : String)
  | probeStart (args : List String)
  | probeEnd (args : List String) (code : Int)
deriving DecidableEq, Repr

/-- How the bootstrap process ends: falling off the end of the script
(process exit status 0), or an unhandled launch fault raised by
`subprocess.call` when the command cannot be started (Python terminates
with an unhandled exception, exit status 1). -/
inductive Outcome where
  | done
  | fault (args : List String)
deriving DecidableEq, Repr

/-- The process exit status produced by each outcome. -/
def Outcome.exitCode : Outcome → Nat
  | done => 0
  | fault _ => 1

/-- Result of a run: the trace of observable events, the raw stdout/stderr
stream inherited directly from the probes, and the outcome. -/
structure RunResult where
  trace : List Event
  stdout : List String
  outcome : Outcome
deriving DecidableEq, Repr

/-- `logging.INFO` in the Python standard library. -/
def infoLevel : Nat := 20

/-- Interpreter for the straight-line script.  The `Nat` argument is the
logger's current effective level.  `logger.setLevel(l)` replaces it;
`logger.info(m)` emits a log line exactly when `logging.INFO` is at or
above the effective level (Python's `isEnabledFor`); `subprocess.call(args)`
asks the external world `exec` to run the command: on launch failure the
run stops immediately with an unhandled fault, otherwise the child's output
is appended to the inherited stdout and its exit status is recorded in the
trace but never inspected. -/
def runInstrs (exec : List String → Option (Int × List String)) :
    Nat → List Instr → RunResult
  | _, [] => ⟨[], [], Outcome.done⟩
  | _, Instr.setLevel l :: rest => runInstrs exec l rest
  | lvl, Instr.info m :: rest =>
    let r := runInstrs exec lvl rest
    ⟨(if infoLevel ≥ lvl then [Event.logLine infoLevel m] else []) ++ r.trace,
     r.stdout, r.outcome⟩
  | lvl, Instr.call args :: rest =>
    match exec args with
    | none => ⟨[Event.probeStart args], [], Outcome.fault args⟩
    | some (c, out) =>
      let r := runInstrs exec lvl rest
      ⟨Event.probeStart args :: Event.probeEnd args c :: r.trace,
       out ++ r.stdout, r.outcome⟩

/-- Argument list of the first probe: `['find', '/', '-name', 'newrelic']`. -/
def probe1 : List String := ["find", "/", "-name", "newrelic"]

/-- Argument list of the second probe: `['find', '/tmp']`. -/
def probe2 : List String := ["find", "/tmp"]

/-- The startup marker message (line 16). -/
def msgStarted : String := "Started Mendix Cloud Foundry Buildpack"

/-- The announcement preceding the first probe (line 18). -/
def msgScanNewrelic : String := "scanning for newrelic"

/-- The announcement preceding the second probe (line 20). -/
def msgScanTmp : String := "now scanning /tmp"

/-- The executable statements of `start.py` lines 14-21, in source order. -/
def script : List Instr :=
  [Instr.setLevel infoLevel,
   Instr.info msgStarted,
   Instr.info msgScanNewrelic,
   Instr.call probe1,
   Instr.info msgScanTmp,
   Instr.call probe2]

/-- The whole bootstrap as the process entry point.  `argv` and `env` are
the command-line arguments and environment of the process; the script reads
neither (`sys.argv` and `os.environ` never appear in it), so they are bound
but unused.  `initLevel` is the logger's effective level inherited from the
`m2ee` library before line 14 runs; line 14 overwrites it at once. -/
def startScript (argv : List String) (env : String → Option String)
    (initLevel : Nat) (exec : List String → Option (Int × List String)) :
    RunResult :=
  runInstrs exec initLevel script

/-- Projection: the argument list of a probe-start event. -/
def Event.startArgs : Event → Option (List String)
  | probeStart a => some a
  | _ => none

/-- Projection: the argument list of a probe-termination event. -/
def Event.endArgs : Event → Option (List String)
  | probeEnd a _ => some a
  | _ => none

/-- Projection: the message of a structured log line. -/
def Event.logMsg : Event → Option String
  | logLine _ m => some m
  | _ => none

/-- Does this event start the probe with the given argument list? -/
def isStartOf (args : List String) : Event → Bool
  | Event.probeStart a => a == args
  | _ => false

/-- Does this event record termination of the probe with the given
argument list? -/
def isEndOf (args : List String) : Event → Bool
  | Event.probeEnd a _ => a == args
  | _ => false

/-- Is this instruction a `logger.setLevel` call? -/
def Instr.isSetLevel : Instr → Bool
  | setLevel _ => true
  | _ => false

/-- Is this instruction a `logger.info` call? -/
def Instr.isInfo : Instr → Bool
  | info _ => true
  | _ => false

/-- Is this instruction a `subprocess.call`? -/
def Instr.isCall : Instr → Bool
  | call _ => true
  | _ => false

/-- Projection: the message of a `logger.info` instruction. -/
def Instr.msgOf : Instr → Option String
  | info m => some m
  | _ => none

/-- Projection: the argument list of a `subprocess.call` instruction. -/
def Instr.callArgs : Instr → Option (List String)
  | call a => some a
  | _ => none

/-- The indices of the `subprocess.call` instructions in a script. -/
def callIdxs (l : List Instr) : List Nat :=
  (List.range l.length).filter fun i =>
    match l.get? i with
    | some ins => ins.isCall
    | none => false

/-- Is the instruction at index `i` immediately preceded by a
`logger.info` announcement? -/
def announcedBefore (l : List Instr) (i : Nat) : Bool :=
  decide (0 < i) &&
    (match l.get? (i - 1) with
     | some ins => ins.isInfo
     | none => false)

/-- Build an external world from a launch/exit-status oracle and a
probe-output oracle: the command launches exactly when `codes` says so, and
a launched child writes `outs` of its command to the inherited stream. -/
def execOf (codes : List String → Option Int)
    (outs : List String → List String) :
    List String → Option (Int × List String) :=
  fun a => (codes a).map fun c => (c, outs a)

/-- External world in which every command is mocked to succeed instantly
with exit status 0 and no output. -/
def execOk : List String → Option (Int × List String) :=
  fun _ => some (0, [])

/-- External world in which no command can be launched. -/
def execNone : List String → Option (Int × List String) :=
  fun _ => none

end StartPy

namespace StartPy

/-- Shape of a run whose first probe cannot be launched: the startup marker
and first announcement are logged, the first probe is attempted, and the
run halts at once with an unhandled fault. -/
lemma run_eq_fail1 (argv : List String) (env : String → Option String)
    (init : Nat) (exec : List String → Option (Int × List String))
    (h : exec probe1 = none) :
    startScript argv env init exec =
      ⟨[Event.logLine infoLevel msgStarted,
        Event.logLine infoLevel msgScanNewrelic,
        Event.probeStart probe1], [], Outcome.fault probe1⟩ := by
  simp [startScript, script, runInstrs, h, infoLevel]

/-- Shape of a run whose first probe runs but whose second probe cannot be
launched. -/
lemma run_eq_fail2 (argv : List String) (env : String → Option String)
    (init : Nat) (exec : List String → Option (Int × List String))
    (c : Int) (out : List String)
    (h1 : exec probe1 = some (c, out)) (h2 : exec probe2 = none) :
    startScript argv env init exec =
      ⟨[Event.logLine infoLevel msgStarted,
        Event.logLine infoLevel msgScanNewrelic,
        Event.probeStart probe1, Event.probeEnd probe1 c,
        Event.logLine infoLevel msgScanTmp,
        Event.probeStart probe2], out, Outcome.fault probe2⟩ := by
  simp [startScript, script, runInstrs, h1, h2, infoLevel]

/-- Shape of a run in which both probes launch. -/
lemma run_eq_ok (argv : List String) (env : String → Option String)
    (init : Nat) (exec : List String → Option (Int × List String))
    (c1 c2 : Int) (o1 o2 : List String)
    (h1 : exec probe1 = some (c1, o1)) (h2 : exec probe2 = some (c2, o2)) :
    startScript argv env init exec =
      ⟨[Event.logLine infoLevel msgStarted,
        Event.logLine infoLevel msgScanNewrelic,
        Event.probeStart probe1, Event.probeEnd probe1 c1,
        Event.logLine infoLevel msgScanTmp,
        Event.probeStart probe2, Event.probeEnd probe2 c2],
       o1 ++ o2, Outcome.done⟩ := by
  simp [startScript, script, runInstrs, h1, h2, infoLevel]

/-- C1: with both probe commands mocked to succeed instantly, the bootstrap
produces exactly the log sequence [startup marker, announcement of the
first probe, announcement of the second probe], invokes the probes in the
order [find / -name newrelic, find /tmp], and exits with status 0. -/
theorem c1_mocked_run (argv : List String) (env : String → Option String)
    (init : Nat) :
    startScript argv env init execOk =
      ⟨[Event.logLine infoLevel msgStarted,
        Event.logLine infoLevel msgScanNewrelic,
        Event.probeStart probe1, Event.probeEnd probe1 0,
        Event.logLine infoLevel msgScanTmp,
        Event.probeStart probe2, Event.probeEnd probe2 0],
       [], Outcome.done⟩ ∧
    (startScript argv env init execOk).trace.filterMap Event.logMsg =
      [msgStarted, msgScanNewrelic, msgScanTmp] ∧
    (startScript argv env init execOk).trace.filterMap Event.startArgs =
      [probe1, probe2] ∧
    (startScript argv env init execOk).outcome.exitCode = 0 :=
  ⟨rfl, rfl, rfl, rfl⟩

/-- C2: in every run, the startup marker log line is emitted exactly once,
and it is the very first event of the trace, hence before every probe
announcement and every probe invocation. -/
theorem c2_startup_marker_once_first (argv : List String)
    (env : String → Option String) (init : Nat)
    (exec : List String → Option (Int × List String)) :
    (startScript argv env init exec).trace.count
        (Event.logLine infoLevel msgStarted) = 1 ∧
    (startScript argv env init exec).trace.head? =
      some (Event.logLine infoLevel msgStarted) := by
  rcases h1 : exec probe1 with _ | ⟨c1, o1⟩
  · rw [run_eq_fail1 argv env init exec h1]
    exact ⟨by decide, rfl⟩
  · rcases h2 : exec probe2 with _ | ⟨c2, o2⟩
    · rw [run_eq_fail2 argv env init exec c1 o1 h1 h2]
      refine ⟨?_, rfl⟩
      simp [List.count_cons, msgStarted, msgScanNewrelic, msgScanTmp]
    · rw [run_eq_ok argv env init exec c1 c2 o1 o2 h1 h2]
      refine ⟨?_, rfl⟩
      simp [List.count_cons, msgStarted, msgScanNewrelic, msgScanTmp]

end StartPy

namespace StartPy

/-- C3: probes execute strictly in declared order and each invocation
blocks: the started probes always form a prefix of [probe1, probe2],
and whenever the second probe starts, the first probe has already
terminated earlier in the trace; the second probe starts at most once. -/
theorem c3_probes_ordered_blocking (argv : List String)
    (env : String → Option String) (init : Nat)
    (exec : List String → Option (Int × List String))
    (h : Event.probeStart probe2 ∈ (startScript argv env init exec).trace) :
    List.IsPrefix
      ((startScript argv env init exec).trace.filterMap Event.startArgs)
      [probe1, probe2] ∧
    (startScript argv env init exec).trace.any (isEndOf probe1) = true ∧
    (startScript argv env init exec).trace.findIdx (isEndOf probe1) <
      (startScript argv env init exec).trace.findIdx (isStartOf probe2) ∧
    (startScript argv env init exec).trace.countP (isStartOf probe2) = 1 := by
  rcases h1 : exec probe1 with _ | ⟨c1, o1⟩
  · rw [run_eq_fail1 argv env init exec h1] at h
    exact absurd h (by decide)
  · rcases h2 : exec probe2 with _ | ⟨c2, o2⟩
    · rw [run_eq_fail2 argv env init exec c1 o1 h1 h2]
      refine ⟨⟨[], rfl⟩, rfl, ?_, rfl⟩
      show (3 : Nat) < 5
      decide
    · rw [run_eq_ok argv env init exec c1 c2 o1 o2 h1 h2]
      refine ⟨⟨[], rfl⟩, rfl, ?_, rfl⟩
      show (3 : Nat) < 5
      decide

/-- C3 witness: the mocked all-success run satisfies the hypothesis and
the conclusion of the ordering theorem. -/
theorem c3_probes_ordered_blocking_witness :
    Event.probeStart probe2 ∈
      (startScript [] (fun _ => none) 0 execOk).trace ∧
    (List.IsPrefix
      ((startScript [] (fun _ => none) 0 execOk).trace.filterMap
        Event.startArgs) [probe1, probe2] ∧
    (startScript [] (fun _ => none) 0 execOk).trace.any (isEndOf probe1) =
      true ∧
    (startScript [] (fun _ => none) 0 execOk).trace.findIdx
        (isEndOf probe1) <
      (startScript [] (fun _ => none) 0 execOk).trace.findIdx
        (isStartOf probe2) ∧
    (startScript [] (fun _ => none) 0 execOk).trace.countP
        (isStartOf probe2) = 1) :=
  ⟨by decide,
   c3_probes_ordered_blocking [] (fun _ => none) 0 execOk (by decide)⟩

/-- C4: whenever every probe command is launchable, the process exits with
status 0 regardless of the probes' exit statuses; no probe exit status
aborts the sequence, and the structured log is exactly the three fixed
lines, never a probe result. -/
theorem c4_exit_status_ignored (argv : List String)
    (env : String → Option String) (init : Nat)
    (f : List String → Int × List String) :
    (startScript argv env init (fun a => some (f a))).outcome =
      Outcome.done ∧
    (startScript argv env init (fun a => some (f a))).outcome.exitCode = 0 ∧
    (startScript argv env init (fun a => some (f a))).trace.filterMap
        Event.logMsg = [msgStarted, msgScanNewrelic, msgScanTmp] ∧
    (startScript argv env init (fun a => some (f a))).trace.filterMap
        Event.startArgs = [probe1, probe2] := by
  have h1 : (fun a => some (f a)) probe1 =
      some ((f probe1).1, (f probe1).2) := rfl
  have h2 : (fun a => some (f a)) probe2 =
      some ((f probe2).1, (f probe2).2) := rfl
  rw [run_eq_ok argv env init _ (f probe1).1 (f probe2).1 (f probe1).2
    (f probe2).2 h1 h2]
  exact ⟨rfl, rfl, rfl, rfl⟩

/-- C5: if launching some probe command fails, the run ends in an unhandled
fault (exit status 1) at the first unlaunchable probe, the trace stops at
that probe's start, and when the first probe is the one that fails the
second probe is never invoked. -/
theorem c5_launch_failure_halts (argv : List String)
    (env : String → Option String) (init : Nat)
    (exec : List String → Option (Int × List String))
    (h : exec probe1 = none ∨ exec probe2 = none) :
    (startScript argv env init exec).outcome =
      Outcome.fault (if exec probe1 = none then probe1 else probe2) ∧
    (startScript argv env init exec).outcome.exitCode = 1 ∧
    (startScript argv env init exec).trace.countP (isStartOf probe2) =
      (if exec probe1 = none then 0 else 1) ∧
    (startScript argv env init exec).trace.countP (isEndOf probe2) = 0 ∧
    (startScript argv env init exec).trace.length =
      (if exec probe1 = none then 3 else 6) := by
  rcases h1 : exec probe1 with _ | ⟨c1, o1⟩
  · rw [run_eq_fail1 argv env init exec h1]
    simp only [h1]
    decide
  · rcases h2 : exec probe2 with _ | ⟨c2, o2⟩
    · rw [run_eq_fail2 argv env init exec c1 o1 h1 h2]
      have hne : exec probe1 ≠ none := by simp [h1]
      simp only [if_neg hne]
      exact ⟨rfl, rfl, rfl, rfl, rfl⟩
    · rw [h1] at h
      rw [h2] at h
      rcases h with h | h <;> exact absurd h (by simp)

/-- C5 witness: the world in which no command launches satisfies the
hypothesis and conclusion of the launch-failure theorem. -/
theorem c5_launch_failure_halts_witness :
    (execNone probe1 = none ∨ execNone probe2 = none) ∧
    ((startScript [] (fun _ => none) 0 execNone).outcome =
      Outcome.fault (if execNone probe1 = none then probe1 else probe2) ∧
    (startScript [] (fun _ => none) 0 execNone).outcome.exitCode = 1 ∧
    (startScript [] (fun _ => none) 0 execNone).trace.countP
        (isStartOf probe2) = (if execNone probe1 = none then 0 else 1) ∧
    (startScript [] (fun _ => none) 0 execNone).trace.countP
        (isEndOf probe2) = 0 ∧
    (startScript [] (fun _ => none) 0 execNone).trace.length =
      (if execNone probe1 = none then 3 else 6)) :=
  ⟨Or.inl rfl,
   c5_launch_failure_halts [] (fun _ => none) 0 execNone (Or.inl rfl)⟩

end StartPy

namespace StartPy

/-- C6: the very first statement of the script sets the log level to the
informational threshold, it is the only level mutation in the script, every
informational log call of the script reaches the trace undropped (for any
launchable world), and the run is independent of the level the logger had
before the script started. -/
theorem c6_level_configured_before_logging (argv : List String)
    (env : String → Option String) (init : Nat)
    (exec : List String → Option (Int × List String))
    (f : List String → Int × List String) :
    script.head? = some (Instr.setLevel infoLevel) ∧
    script.filter Instr.isSetLevel = [Instr.setLevel infoLevel] ∧
    (startScript argv env init (fun a => some (f a))).trace.filterMap
        Event.logMsg = script.filterMap Instr.msgOf ∧
    startScript argv env init exec = startScript argv env infoLevel exec := by
  refine ⟨rfl, rfl, ?_, rfl⟩
  have h1 : (fun a => some (f a)) probe1 =
      some ((f probe1).1, (f probe1).2) := rfl
  have h2 : (fun a => some (f a)) probe2 =
      some ((f probe2).1, (f probe2).2) := rfl
  rw [run_eq_ok argv env init _ (f probe1).1 (f probe2).1 (f probe1).2
    (f probe2).2 h1 h2]
  rfl

/-- C7 counterexample: the claim that some probe lacks a preceding
descriptive log line is false: the script has exactly the two probes at
indices 3 and 5, and none of them is unannounced. -/
theorem c7_counterexample_all_probes_announced :
    ((callIdxs script).any fun i => !(announcedBefore script i)) = false ∧
    callIdxs script = [3, 5] := by decide

/-- C7 amended: every probe invocation in the fixed script is immediately
preceded by a descriptive informational log line (both the probe at index 3
and the probe at index 5 are announced). -/
theorem c7_amended_every_probe_announced :
    ((callIdxs script).all fun i => announcedBefore script i) = true ∧
    callIdxs script = [3, 5] := by decide

/-- C8: probe output goes only to the inherited stdout/stderr stream, never
into the structured log: the trace and outcome are independent of what the
probes write, the run's stdout is exactly the concatenation, in order, of
the outputs of the probes that ran, and every structured log message is one
of the three fixed informational lines. -/
theorem c8_probe_output_inherited_not_logged (argv : List String)
    (env : String → Option String) (init : Nat)
    (codes : List String → Option Int)
    (outs outs' : List String → List String) :
    (startScript argv env init (execOf codes outs)).trace =
      (startScript argv env init (execOf codes outs')).trace ∧
    (startScript argv env init (execOf codes outs)).outcome =
      (startScript argv env init (execOf codes outs')).outcome ∧
    (startScript argv env init (execOf codes outs)).stdout =
      ((startScript argv env init (execOf codes outs)).trace.filterMap
          Event.endArgs).foldr (fun a acc => outs a ++ acc) [] ∧
    ((startScript argv env init (execOf codes outs)).trace.filterMap
        Event.logMsg).all
      (fun m => m == msgStarted || m == msgScanNewrelic || m == msgScanTmp)
      = true := by
  rcases hc1 : codes probe1 with _ | c1
  · have h1 : execOf codes outs probe1 = none := by simp [execOf, hc1]
    have h1b : execOf codes outs' probe1 = none := by simp [execOf, hc1]
    rw [run_eq_fail1 argv env init _ h1, run_eq_fail1 argv env init _ h1b]
    exact ⟨rfl, rfl, rfl, rfl⟩
  · have h1 : execOf codes outs probe1 = some (c1, outs probe1) := by
      simp [execOf, hc1]
    have h1b : execOf codes outs' probe1 = some (c1, outs' probe1) := by
      simp [execOf, hc1]
    rcases hc2 : codes probe2 with _ | c2
    · have h2 : execOf codes outs probe2 = none := by simp [execOf, hc2]
      have h2b : execOf codes outs' probe2 = none := by simp [execOf, hc2]
      rw [run_eq_fail2 argv env init _ c1 (outs probe1) h1 h2,
        run_eq_fail2 argv env init _ c1 (outs' probe1) h1b h2b]
      refine ⟨rfl, rfl, ?_, rfl⟩
      show outs probe1 = outs probe1 ++ []
      simp
    · have h2 : execOf codes outs probe2 = some (c2, outs probe2) := by
        simp [execOf, hc2]
      have h2b : execOf codes outs' probe2 = some (c2, outs' probe2) := by
        simp [execOf, hc2]
      rw [run_eq_ok argv env init _ c1 c2 (outs probe1) (outs probe2) h1 h2,
        run_eq_ok argv env init _ c1 c2 (outs' probe1) (outs' probe2) h1b h2b]
      refine ⟨rfl, rfl, ?_, rfl⟩
      show outs probe1 ++ outs probe2 = outs probe1 ++ (outs probe2 ++ [])
      simp

/-- C9: the bootstrap consumes no command-line arguments and no environment
variables: two runs differing only in argv or environment produce identical
results (trace, stdout and outcome). -/
theorem c9_argv_env_not_consumed (argv argv' : List String)
    (env env' : String → Option String) (init : Nat)
    (exec : List String → Option (Int × List String)) :
    startScript argv env init exec = startScript argv' env' init exec := rfl

/-- C10: the fixed probe list is exactly [find / -name newrelic, find /tmp]
in that order, and in any run whose commands all launch, each of the two
probes is invoked exactly once, in that order. -/
theorem c10_probe_list_exact (argv : List String)
    (env : String → Option String) (init : Nat)
    (f : List String → Int × List String) :
    script.filterMap Instr.callArgs =
      [["find", "/", "-name", "newrelic"], ["find", "/tmp"]] ∧
    (startScript argv env init (fun a => some (f a))).trace.filterMap
        Event.startArgs =
      [["find", "/", "-name", "newrelic"], ["find", "/tmp"]] ∧
    (startScript argv env init (fun a => some (f a))).trace.countP
        (isStartOf probe1) = 1 ∧
    (startScript argv env init (fun a => some (f a))).trace.countP
        (isStartOf probe2) = 1 := by
  have h1 : (fun a => some (f a)) probe1 =
      some ((f probe1).1, (f probe1).2) := rfl
  have h2 : (fun a => some (f a)) probe2 =
      some ((f probe2).1, (f probe2).2) := rfl
  rw [run_eq_ok argv env init _ (f probe1).1 (f probe2).1 (f probe1).2
    (f probe2).2 h1 h2]
  exact ⟨rfl, rfl, rfl, rfl⟩

end StartPy
